import Mathlib

/-!
Verification of the turn-processing core of the adventure-engine backend.

The development shallowly embeds the Python modules
`backend/app/mechanics_old.py` (collapse state machine, environmental
damage, legacy victory/defeat evaluator), `backend/app/mechanics.py`
(current simplified evaluator and ability system),
`backend/app/agents/intent_parser.py`, the deterministic control skeleton
of `backend/app/agents/adventure_narrator.py`, and the per-turn pipeline
of `process_command` in `backend/app/main.py`.

Conventions used throughout:
* Python dicts with a fixed set of read keys become structures; a
  `session.get(key, default)` read of a possibly-absent key becomes a
  field whose construction-site default is that default value.
* Python float probabilities and mitigation factors (all exact multiples
  of 1/10 in the source tables) are represented in integer percent; the
  single float product `int(base_damage * (1.0 - reduction))` is
  represented as `base * (100 - pct) / 100` with natural floor division,
  which agrees with the Python float results on every (base damage,
  class) pair reachable from the environmental-effect table (the repo's
  own unit tests pin `calculate_damage 20` to 10/14/12/20).
* `random.random() < chance` draws are made explicit: the sampled value
  arrives as a `roll` percent parameter and the comparison `roll <
  chance` is kept; `random.choice` over a narrative list arrives as a
  `choice` index parameter taken modulo the list length.
* External calls that can raise (the LLM classifier, the specialist
  sub-agents) arrive as `Except String` valued parameters; `Except.error`
  models a raised exception.
* Apostrophes inside narrative strings are written with the typographic
  mark; no claim compares narrative text beyond emptiness.
-/

namespace Adventure

/-- Substring containment: the embedding of the Python `needle in hay` test
on strings. -/
def substrOf (needle hay : String) : Prop :=
  needle.data <:+: hay.data

instance (n h : String) : Decidable (substrOf n h) :=
  List.decidableInfix n.data h.data

/-- Embedding of Python `str.lower()` (ASCII case folding suffices for every
string the program compares). -/
def strLower (s : String) : String :=
  ⟨s.data.map Char.toLower⟩

/-- Flag maps (`temp_flags` and the sub-maps stored under it) are association
lists from flag name to boolean value. -/
abbrev Flags := List (String × Bool)

/-- Reading a flag with Python `flags.get(key, False)`. -/
def flagGet (fl : Flags) (k : String) : Bool :=
  (List.lookup k fl).getD false

namespace MechOld

/-- Game status values of `mechanics_old.py` (`GameStatus`). -/
inductive GameStatus where
  | active
  | victory
  | defeat
deriving DecidableEq, Repr

/-- Defeat reasons of `mechanics_old.py` (`DefeatReason`). -/
inductive DefeatReason where
  | death
  | trappedByCollapse
  | trappedInDeadEnd
deriving DecidableEq, Repr

/-- The session fields read or written by `mechanics_old.py`.  Defaults are
the `session.get` fallbacks used by the module. -/
structure Session where
  location : String := ""
  inventory : List String := []
  currentHealth : Int := 100
  characterClass : String := ""
  collapseTriggered : Bool := false
  turnsSinceCollapse : Nat := 0
  collapseTurnLimit : Nat := 7
  escaped : Bool := false
  status : GameStatus := .active
  defeatReason : Option DefeatReason := none
deriving DecidableEq, Repr

/-- `CollapseManager.DEFAULT_TURN_LIMIT`. -/
def DEFAULT_TURN_LIMIT : Nat := 7

/-- `CollapseManager.trigger_collapse`: sets the collapse flags and returns
the trigger narrative. -/
def trigger_collapse (s : Session) : Session × String :=
  ({ s with collapseTriggered := true, turnsSinceCollapse := 0,
            collapseTurnLimit := DEFAULT_TURN_LIMIT },
   "As you grasp the Crystal of Echoing Depths, a deep rumbling begins! " ++
   "The pedestal’s pressure plate releases with a grinding sound. " ++
   "Ancient mechanisms activate throughout the cave system. " ++
   "The collapse has begun - you must escape immediately!")

/-- `CollapseManager.increment_collapse_turn`. -/
def increment_collapse_turn (s : Session) : Session :=
  if s.collapseTriggered then
    { s with turnsSinceCollapse := s.turnsSinceCollapse + 1 }
  else s

/-- `CollapseManager.is_collapse_active`. -/
def is_collapse_active (s : Session) : Bool :=
  s.collapseTriggered

/-- `CollapseManager.get_turns_since_collapse`. -/
def get_turns_since_collapse (s : Session) : Nat :=
  s.turnsSinceCollapse

/-- `CollapseManager.get_turn_limit`. -/
def get_turn_limit (s : Session) : Nat :=
  s.collapseTurnLimit

/-- `CollapseManager.is_time_running_out`. -/
def is_time_running_out (s : Session) : Bool :=
  if ¬ is_collapse_active s then false
  else decide (get_turns_since_collapse s ≥ get_turn_limit s)

/-- `CollapseManager.get_urgency_level`: the hazard tier as a function of
turns elapsed since the collapse trigger. -/
def get_urgency_level (s : Session) : String :=
  if ¬ is_collapse_active s then "none"
  else
    let turns := get_turns_since_collapse s
    if turns = 0 then "none"
    else if turns ≤ 2 then "minor"
    else if turns ≤ 4 then "moderate"
    else if turns ≤ 6 then "severe"
    else "critical"

/-- Severity ordering of the urgency tiers (derived; used to state
monotonicity, not part of the source). -/
def urgencyRank : String → Nat
  | "minor" => 1
  | "moderate" => 2
  | "severe" => 3
  | "critical" => 4
  | _ => 0

/-- `CollapseManager.get_collapse_narrative`. -/
def get_collapse_narrative (s : Session) : String :=
  let urgency := get_urgency_level s
  let tag := "[Turn " ++ toString (get_turns_since_collapse s) ++ "/" ++
             toString (get_turn_limit s) ++ "] "
  if urgency = "minor" then
    tag ++ "Small rocks tumble from the ceiling. You hear ominous creaking. Move quickly!"
  else if urgency = "moderate" then
    tag ++ "Rocks crash down around you! The ceiling cracks ominously. The collapse is intensifying!"
  else if urgency = "severe" then
    tag ++ "HEAVY ROCKFALL! Boulders smash into the ground! The cave is coming down - RUN!"
  else if urgency = "critical" then
    tag ++ "CRITICAL COLLAPSE! Massive sections of ceiling give way! Passages are sealing shut! ESCAPE NOW!"
  else ""

/-- One row of `EnvironmentalState.ENVIRONMENTAL_EFFECTS`; `damageChance` is
in percent. -/
structure EnvEffect where
  description : String
  damageChance : Nat
  damageAmount : Nat
  roomModifier : String
deriving DecidableEq, Repr

/-- `EnvironmentalState.ENVIRONMENTAL_EFFECTS`, keyed by urgency level.  The
catch-all arm is unreachable (`get_environmental_state` only produces the
five table keys) and mirrors the "none" row. -/
def ENVIRONMENTAL_EFFECTS : String → EnvEffect
  | "minor" =>
    { description := "Small rocks tumble from the ceiling. Dust fills the air."
      damageChance := 10
      damageAmount := 5
      roomModifier := "The walls tremble. Small rocks rain down intermittently." }
  | "moderate" =>
    { description := "Rocks crash down! The ceiling cracks ominously!"
      damageChance := 30
      damageAmount := 10
      roomModifier := "Cracks spread across the ceiling! Larger rocks fall with alarming frequency!" }
  | "severe" =>
    { description := "HEAVY ROCKFALL! Boulders smash into the ground!"
      damageChance := 60
      damageAmount := 20
      roomModifier := "MASSIVE ROCKFALL! The ceiling is giving way! Boulders crash down everywhere!" }
  | "critical" =>
    { description := "CRITICAL COLLAPSE! The cave is sealing shut!"
      damageChance := 90
      damageAmount := 30
      roomModifier := "TOTAL COLLAPSE! Entire sections of ceiling crash down! Passages sealing!" }
  | _ =>
    { description := ""
      damageChance := 0
      damageAmount := 0
      roomModifier := "" }

/-- `EnvironmentalState.get_environmental_state`. -/
def get_environmental_state (s : Session) : String :=
  if ¬ is_collapse_active s then "none" else get_urgency_level s

/-- `EnvironmentalState.get_damage_chance` (percent). -/
def get_damage_chance (s : Session) : Nat :=
  (ENVIRONMENTAL_EFFECTS (get_environmental_state s)).damageChance

/-- `EnvironmentalState.get_damage_amount`. -/
def get_damage_amount (s : Session) : Nat :=
  (ENVIRONMENTAL_EFFECTS (get_environmental_state s)).damageAmount

/-- `DamageSystem.CLASS_DAMAGE_REDUCTION` in percent (`0.5`, `0.3`, `0.4`
in the source; `.get(character_class, 0.0)` for anything else). -/
def CLASS_DAMAGE_REDUCTION : String → Nat
  | "Warrior" => 50
  | "Wizard" => 30
  | "Rogue" => 40
  | _ => 0

/-- `DamageSystem.calculate_damage`: `max(0, int(base * (1.0 - reduction)))`.
With the percent representation the truncation becomes natural floor
division; the result is non-negative by construction, matching the
`max(0, ...)` clamp. -/
def calculate_damage (base : Nat) (characterClass : String) : Nat :=
  base * (100 - CLASS_DAMAGE_REDUCTION characterClass) / 100

/-- Result record of `DamageSystem.apply_environmental_damage`. -/
structure DamageResult where
  damage_applied : Nat := 0
  damage_occurred : Bool := false
  narrative : String := ""
deriving DecidableEq, Repr

/-- `DamageSystem.get_damage_narrative`; `choice` stands for the
`random.choice` draw. -/
def get_damage_narrative (damage : Nat) (characterClass : String)
    (remainingHealth : Int) (choice : Nat) : String :=
  let d := toString damage
  let pool :=
    if characterClass = "Warrior" then
      ["A boulder crashes down! You raise your shield, absorbing most of the impact. (-" ++ d ++ " HP)",
       "Rocks rain down on you! Your armor deflects the worst of it. (-" ++ d ++ " HP)",
       "You brace yourself as debris falls! Your warrior training minimizes the damage. (-" ++ d ++ " HP)"]
    else if characterClass = "Wizard" then
      ["Falling rocks strike! Your magical shield flares, reducing the impact. (-" ++ d ++ " HP)",
       "Debris crashes around you! Your protective ward absorbs some damage. (-" ++ d ++ " HP)",
       "Rocks fall! Your arcane barrier partially deflects them. (-" ++ d ++ " HP)"]
    else if characterClass = "Rogue" then
      ["Rocks fall! You twist aside, but can’t avoid them all. (-" ++ d ++ " HP)",
       "Debris rains down! Your reflexes save you from the worst. (-" ++ d ++ " HP)",
       "You dodge falling rocks, but one clips you. (-" ++ d ++ " HP)"]
    else
      ["Falling rocks strike you! (-" ++ d ++ " HP)"]
  let narrative := pool.getD (choice % pool.length) ""
  if remainingHealth ≤ 20 then
    narrative ++ " ⚠️ CRITICAL HEALTH: " ++ toString remainingHealth ++ " HP remaining!"
  else if remainingHealth ≤ 50 then
    narrative ++ " Health: " ++ toString remainingHealth ++ " HP"
  else narrative

/-- `DamageSystem.apply_environmental_damage`.  `roll` is the percent value
of the `random.random()` draw; damage occurs when it is strictly below the
tier's damage chance. -/
def apply_environmental_damage (s : Session) (roll : Nat) (choice : Nat) :
    DamageResult × Session :=
  if ¬ is_collapse_active s then ({}, s)
  else
    let chance := get_damage_chance s
    let base := get_damage_amount s
    if roll < chance then
      let dmg := calculate_damage base s.characterClass
      let newHealth := max 0 (s.currentHealth - dmg)
      ({ damage_applied := dmg
         damage_occurred := true
         narrative := get_damage_narrative dmg s.characterClass newHealth choice },
       { s with currentHealth := newHealth })
    else ({}, s)

/-- `should_trigger_collapse`: substring tests on the lowercased command. -/
def should_trigger_collapse (command : String) (s : Session) : Bool :=
  let cmdLower := strLower command
  let isTake := substrOf "take" cmdLower ∨ substrOf "grab" cmdLower ∨
                substrOf "get" cmdLower ∨ substrOf "pick up" cmdLower
  let isCrystal := substrOf "crystal" cmdLower
  decide isTake && decide isCrystal && decide (s.location = "crystal_treasury") &&
    !s.collapseTriggered

/-- `check_victory_condition` of `mechanics_old.py`: crystal held and at the
entrance (lowercased location), or an `escaped` flag. -/
def check_victory_condition (s : Session) : Bool :=
  let hasCrystal := s.inventory.contains "crystal_of_echoing_depths"
  let atEntrance := strLower s.location = "cave_entrance"
  (hasCrystal && decide atEntrance) || s.escaped

/-- `check_defeat_conditions` of `mechanics_old.py`: health first, then the
dead-end trap (checked before the general timer), then the collapse timer. -/
def check_defeat_conditions (s : Session) : Bool × Option DefeatReason :=
  if s.currentHealth ≤ 0 then (true, some .death)
  else if s.location = "collapsed_passage" ∧ is_collapse_active s = true ∧
          (get_urgency_level s = "severe" ∨ get_urgency_level s = "critical") then
    (true, some .trappedInDeadEnd)
  else if is_time_running_out s then (true, some .trappedByCollapse)
  else (false, none)

/-- `get_victory_narrative` of `mechanics_old.py` (banner text abbreviated to
a fixed marker line; nothing compares its exact bytes). -/
def get_victory_narrative : String :=
  "\n\n═══════════════════════════\n🏆 VICTORY! 🏆\n═══════════════════════════\n\n" ++
  "You burst from the cave entrance into blessed daylight, the Crystal of " ++
  "Echoing Depths clutched triumphantly in your hands!\n\n" ++
  "Behind you, the cave system groans and collapses with a thunderous roar, " ++
  "sealing the treasury forever. Dust billows from the entrance as the rumbling " ++
  "subsides.\n\n" ++
  "You’ve succeeded where countless others failed. The crystal pulses warmly " ++
  "in your grasp, its blue light dimming now that you’re safe.\n\n" ++
  "The adventure is complete. The treasure is yours. Well done, brave adventurer!"

/-- `get_defeat_narrative` of `mechanics_old.py` (the function also defaults
unknown reasons to the death text via `narratives.get`; every caller passes
a table key). -/
def get_defeat_narrative (reason : DefeatReason) : String :=
  match reason with
  | .death =>
    "\n\n═══════════════════════════\n💀 DEFEAT - DEATH 💀\n═══════════════════════════\n\n" ++
    "Your vision fades as injuries overwhelm you. The darkness of the cave " ++
    "becomes permanent.\n\n" ++
    "The cave claims another victim. Your adventure ends here.\n\nGAME OVER"
  | .trappedByCollapse =>
    "\n\n═══════════════════════════\n💀 DEFEAT - TRAPPED 💀\n═══════════════════════════\n\n" ++
    "The final boulder seals the passage with a thunderous crash. " ++
    "You’re trapped in darkness.\n\n" ++
    "Your torch flickers and dies. The cave system has become your tomb.\n\n" ++
    "You took too long to escape. GAME OVER"
  | .trappedInDeadEnd =>
    "\n\n═══════════════════════════\n💀 DEFEAT - DEAD END 💀\n═══════════════════════════\n\n" ++
    "You realize too late - the collapsed passage has no exit!\n\n" ++
    "The cave-in seals you in this dead end. The rumbling intensifies " ++
    "as the ceiling gives way.\n\n" ++
    "You went the wrong direction during the collapse. GAME OVER"

/-- `update_game_status` of `mechanics_old.py`: victory first, then defeat,
else the status is (re)set to active.  Returns the mutated session and the
status narrative. -/
def update_game_status (s : Session) : Session × String :=
  if check_victory_condition s then
    ({ s with status := .victory }, get_victory_narrative)
  else
    match check_defeat_conditions s with
    | (true, reason) =>
      ({ s with status := .defeat, defeatReason := reason },
       match reason with
       | some r => get_defeat_narrative r
       | none => get_defeat_narrative .death)
    | (false, _) => ({ s with status := .active }, "")

end MechOld

namespace Mech

/-- Game status values of `mechanics.py` (`GameStatus`). -/
inductive GameStatus where
  | inProgress
  | victory
  | defeat
deriving DecidableEq, Repr

/-- Defeat reasons of `mechanics.py` (`DefeatReason`). -/
inductive DefeatReason where
  | healthDepleted
deriving DecidableEq, Repr

/-- Inventory entries as `check_victory_condition` of `mechanics.py` sees
them: either a plain string or a dict carrying an `id` field. -/
inductive Item where
  | str (s : String)
  | obj (id : String)
deriving DecidableEq, Repr

/-- The session fields read or written by `mechanics.py`.  `game_status` is
an `Option` because the module distinguishes an absent key (`setdefault`). -/
structure Session where
  inventory : List Item := []
  location : String := ""
  characterHealth : Int := 100
  game_status : Option GameStatus := none
  defeat_reason : Option DefeatReason := none
deriving DecidableEq, Repr

/-- The possession test inside `check_victory_condition` of `mechanics.py`:
a case-sensitive substring scan for `"crystal"` over the inventory. -/
def hasCrystal (inventory : List Item) : Bool :=
  inventory.any fun item =>
    match item with
    | .str s => decide (substrOf "crystal" s)
    | .obj id => decide (substrOf "crystal" id)

/-- `check_victory_condition` of `mechanics.py`: crystal-substring item held
and located at `cave_entrance`. -/
def check_victory_condition (s : Session) : Bool :=
  hasCrystal s.inventory && decide (s.location = "cave_entrance")

/-- `check_defeat_conditions` of `mechanics.py`: only the health check. -/
def check_defeat_conditions (s : Session) : Option DefeatReason :=
  if s.characterHealth ≤ 0 then some .healthDepleted else none

/-- `get_victory_narrative` of `mechanics.py`. -/
def get_victory_narrative : String :=
  "\nYou burst from the cave entrance into blessed daylight, the Crystal of Echoing Depths\n" ++
  "clutched triumphantly in your hands! The crystal pulses warmly in your grasp, \n" ++
  "its blue light glowing with ancient power.\n\n" ++
  "The adventure is complete. The treasure is yours. Well done, brave adventurer!\n\n" ++
  "🏆 VICTORY! 🏆\n"

/-- `get_defeat_narrative` of `mechanics.py`. -/
def get_defeat_narrative (reason : Option DefeatReason) : String :=
  match reason with
  | none => ""
  | some .healthDepleted =>
    "\nYour strength fails you. Your vision dims as you collapse to the cold stone floor.\n" ++
    "The darkness of the cave claims another adventurer...\n\n" ++
    "💀 DEFEAT - Your health has been depleted. 💀\n"

/-- `update_game_status` of `mechanics.py`: victory first, then defeat, else
`setdefault(game_status, IN_PROGRESS)`.  Returns the mutated session and
the narrative (empty when no terminal condition fired). -/
def update_game_status (s : Session) : Session × String :=
  if check_victory_condition s then
    ({ s with game_status := some .victory }, get_victory_narrative)
  else
    match check_defeat_conditions s with
    | some reason =>
      ({ s with game_status := some .defeat, defeat_reason := some reason },
       get_defeat_narrative (some reason))
    | none =>
      ({ s with game_status := some (s.game_status.getD .inProgress) }, "")

/-- `initialize_game_mechanics` of `mechanics.py`: `setdefault` on the two
status keys (the `defeat_reason` default `None` is invisible in the
`Option` representation). -/
def initialize_game_mechanics (s : Session) : Session :=
  { s with game_status := some (s.game_status.getD .inProgress) }

/-- `SimpleAbilitySystem.ABILITIES`: ability name and effect per class. -/
def ABILITIES : String → List (String × String)
  | "Warrior" => [("dash", "movement_boost")]
  | "Wizard" => [("illuminate", "light")]
  | "Rogue" => [("sneak", "stealth")]
  | _ => []

/-- `SimpleAbilitySystem.get_available_abilities`. -/
def get_available_abilities (characterClass : String) : List String :=
  (ABILITIES characterClass).map Prod.fst

/-- `SimpleAbilitySystem.parse_ability_command`: scans for a known ability
name as a substring of the lowercased command (the second `use`/`cast` loop
in the source re-runs the same scan and cannot change the result). -/
def parse_ability_command (command : String) (characterClass : String) :
    Bool × String :=
  let commandLower := strLower command
  match (get_available_abilities characterClass).find?
      (fun a => decide (substrOf (strLower a) commandLower)) with
  | some a => (true, a)
  | none => (false, "")

/-- `SimpleAbilitySystem.can_use_ability` (the reason/ability payload is
collapsed to the boolean plus effect lookup its one caller consumes). -/
def can_use_ability (abilityName : String) (characterClass : String) : Bool :=
  (ABILITIES characterClass).any fun ab => ab.1 = strLower abilityName

/-- Result record of `SimpleAbilitySystem.use_ability`; `effects` carries the
`ability_used` and `effect_type` entries of the source dict. -/
structure AbilityResult where
  success : Bool
  narrative : String
  ability_used : Option String := none
  effect_type : Option String := none
deriving DecidableEq, Repr

/-- `SimpleAbilitySystem.use_ability`. -/
def use_ability (abilityName : String) (characterClass : String) : AbilityResult :=
  if ¬ can_use_ability abilityName characterClass then
    { success := false
      narrative := characterClass ++ "s don’t have the ’" ++ strLower abilityName ++ "’ ability." }
  else
    let normalized := strLower abilityName
    let effect := ((ABILITIES characterClass).lookup normalized).getD ""
    let narrative :=
      if normalized = "dash" then
        "You burst forward with " ++ strLower characterClass ++ " speed!"
      else if normalized = "illuminate" then
        "Magical light blooms from your fingertips, illuminating the darkness."
      else if normalized = "sneak" then
        "You melt into the shadows, moving silently."
      else "You use " ++ abilityName ++ "!"
    { success := true
      narrative := narrative
      ability_used := some normalized
      effect_type := some effect }

end Mech

namespace Intent

/-- Command categories of `command_models.py` (`CommandType`). -/
inductive CommandType where
  | movement
  | examine
  | pickup
  | drop
  | use
  | talk
  | attack
  | look
  | inventory
  | ability
  | unknown
deriving DecidableEq, Repr

/-- The `CommandType(value)` enum constructor: `none` models the
`ValueError` branch. -/
def commandTypeOfString : String → Option CommandType
  | "movement" => some .movement
  | "examine" => some .examine
  | "pickup" => some .pickup
  | "drop" => some .drop
  | "use" => some .use
  | "talk" => some .talk
  | "attack" => some .attack
  | "look" => some .look
  | "inventory" => some .inventory
  | "ability" => some .ability
  | "unknown" => some .unknown
  | _ => none

/-- The structured intent returned by the external classifier
(`IntentClassification`); `confidence` is represented in percent like the
other float fields of the development. -/
structure IntentClassification where
  command_type : String
  action : String
  target : Option String := none
  direction : Option String := none
  confidence : Nat := 100
deriving DecidableEq, Repr

/-- `ParsedCommand` of `command_models.py`. -/
structure ParsedCommand where
  command_type : CommandType
  action : String
  target : Option String := none
  direction : Option String := none
  parameters : List (String × String) := []
  confidence : Nat := 100
deriving DecidableEq, Repr

/-- Python `not raw_command or not raw_command.strip()`: true exactly when
every character is whitespace (vacuously for the empty string). -/
def isBlank (s : String) : Bool :=
  s.data.all Char.isWhitespace

/-- `IntentParser.parse_command`.  The external `agent.run` call arrives as
`classify`; `Except.error` models the call raising.  Empty or
whitespace-only input short-circuits before the external call; otherwise
the classifier outcome is consumed, and an exception — there being no
`try` around the call in the source — propagates to the caller. -/
def parse_command (rawCommand : String)
    (classify : Except String IntentClassification) :
    Except String ParsedCommand :=
  if isBlank rawCommand then
    .ok { command_type := .unknown, action := "", confidence := 0 }
  else
    match classify with
    | .error e => .error e
    | .ok c =>
      .ok { command_type := (commandTypeOfString (strLower c.command_type)).getD .unknown
            action := c.action
            target := c.target
            direction := c.direction
            confidence := c.confidence }

end Intent

namespace Narrator

/-- The `game_state` dict handed to `AdventureNarrator.handle_command` by
`process_command` (defaults are the narrator-side `.get` fallbacks;
`character_class` stands for both the top-level entry and the field of the
`character` sub-dict, which `process_command` populates from the same
source). -/
structure GameState where
  location : String := "unknown"
  inventory : List String := []
  visited_rooms : List String := []
  character_class : String := ""
  temp_flags : Flags := []
  collapse_triggered : Bool := false
  turns_since_collapse : Nat := 0
  turn_count : Nat := 0
deriving DecidableEq, Repr

/-- The `game_state_updates` dict of a `GameResponse`: every key any handler
ever writes, each optional (absent keys are simply not in the dict). -/
structure Delta where
  location : Option String := none
  inventory : Option (List String) := none
  game_status : Option Mech.GameStatus := none
  collapse_triggered : Option Bool := none
  turns_since_collapse : Option Nat := none
  temp_flags : Option Flags := none
  ability_used : Option String := none
  effect_type : Option String := none
deriving DecidableEq, Repr

/-- Python `dict.update`: keys present in the second dict win. -/
def deltaUpdate (d e : Delta) : Delta :=
  { location := e.location <|> d.location
    inventory := e.inventory <|> d.inventory
    game_status := e.game_status <|> d.game_status
    collapse_triggered := e.collapse_triggered <|> d.collapse_triggered
    turns_since_collapse := e.turns_since_collapse <|> d.turns_since_collapse
    temp_flags := e.temp_flags <|> d.temp_flags
    ability_used := e.ability_used <|> d.ability_used
    effect_type := e.effect_type <|> d.effect_type }

/-- `GameResponse` of `adventure_narrator.py` (the informational `metadata`
dict is not carried; no claim concerns it). -/
structure GameResponse where
  agent : String
  narrative : String
  game_state_updates : Delta := {}
  success : Bool := true
deriving DecidableEq, Repr

/-- Result dict of `RoomDescriptor.handle_movement` as consumed by
`_handle_movement` (the collaborator always supplies a description, so the
dead `.get` default for it is dropped). -/
structure MovementResult where
  success : Bool
  description : String
  new_location : String := ""
  state_updates : Delta := {}
deriving DecidableEq, Repr

/-- Result dict of the `InventoryManager` item operations as consumed by
`_handle_item_interaction`. -/
structure ItemResult where
  success : Bool
  message : String := ""
  narrative : String := ""
  inventory_update : Option (List String) := none
  state_changes : Delta := {}
deriving DecidableEq, Repr

/-- Outcomes of the specialist-agent calls a single turn may perform; an
`Except.error` models the delegated call raising (caught inside the
handler, which degrades to a fallback narrative). -/
structure Ext where
  movement : Except String MovementResult := .error ""
  room_description : Except String String := .error ""
  examine_description : Except String String := .error ""
  pickup : Except String ItemResult := .error ""
  dropResult : Except String ItemResult := .error ""
  useResult : Except String ItemResult := .error ""
  inventory_summary : Except String String := .error ""
deriving Repr

/-- The possession test of the escape/exit override (lowercasing scan,
`any('crystal' in str(item).lower() for item in inventory)`). -/
def hasCrystalLower (inventory : List String) : Bool :=
  inventory.any fun item => decide (substrOf "crystal" (strLower item))

/-- Python `command.target or default` (both `None` and `""` fall back). -/
def targetOr (t : Option String) (dflt : String) : String :=
  match t with
  | some s => if s = "" then dflt else s
  | none => dflt

/-- The fixed not-understood response used for `UNKNOWN` and for the final
fallback of `handle_command` (textually identical in the source). -/
def unknownResponse (pc : Intent.ParsedCommand) : GameResponse :=
  { agent := "AdventureNarrator"
    narrative := "I don’t understand ’" ++ pc.action ++ "’. " ++
                 "Try commands like ’go north’, ’examine door’, or ’take key’."
    success := false }

/-- The chasm-crossing sub-protocol of `_handle_movement` at
`yawning_chasm`: equipment or a prior dash permit toggles the
`chasm_east_side` flag instead of changing location. -/
def crossChasm (gs : GameState) : GameResponse :=
  let crossingItems := ["magical_rope", "grappling_hook", "climbing_gear"]
  let hasEquipment := crossingItems.any fun item => gs.inventory.contains item
  let abilityUsed := flagGet gs.temp_flags "ability_used_for_crossing"
  if hasEquipment || abilityUsed then
    let currentSide := flagGet gs.temp_flags "chasm_east_side"
    let newSide := !currentSide
    let crossNarrative :=
      if hasEquipment then
        let itemName :=
          match crossingItems.find? (fun item => gs.inventory.contains item) with
          | some item => item.replace "_" " "
          | none => "equipment"
        "You carefully secure the " ++ itemName ++
        " and make your way across the treacherous chasm. The ancient stone holds beneath your weight."
      else
        "With a powerful burst of speed, you dash across the chasm in a single leap!"
    let narrative :=
      if newSide then
        crossNarrative ++ " You’re now on the eastern side - the path to the Crystal Treasury lies ahead."
      else
        crossNarrative ++ " You’re now on the western side - the path back to the cave entrance is clear."
    { agent := "AdventureNarrator"
      narrative := narrative
      game_state_updates :=
        { temp_flags := some [("chasm_east_side", newSide),
                              ("ability_used_for_crossing", false)] }
      success := true }
  else
    { agent := "AdventureNarrator"
      narrative := "The chasm yawns before you - far too wide to jump. " ++
                   "You’ll need rope, climbing gear, or a grappling hook to cross safely."
      success := false }

/-- The generic movement tail of `_handle_movement`: delegate to the room
collaborator; on an exception fall back to a degraded narrative that still
writes a synthesized location. -/
def moveViaRoom (gs : GameState) (ext : Ext) (direction : String) : GameResponse :=
  match ext.movement with
  | .ok mr =>
    if mr.success then
      { agent := "RoomDescriptor"
        narrative := mr.description
        game_state_updates :=
          deltaUpdate { location := some mr.new_location } mr.state_updates
        success := true }
    else
      { agent := "RoomDescriptor"
        narrative := mr.description
        success := false }
  | .error e =>
    { agent := "AdventureNarrator"
      narrative := "You head " ++ direction ++ " from " ++ gs.location ++
                   ". [Agent error: " ++ e ++ "]"
      game_state_updates := { location := some (gs.location ++ "_" ++ direction) }
      success := true }

/-- `_handle_movement`: contextual `cross`/`traverse` rewrites, the chasm
sub-protocol, then the generic movement tail. -/
def handleMovement (pc : Intent.ParsedCommand) (gs : GameState) (ext : Ext) :
    GameResponse :=
  let direction := targetOr pc.direction "somewhere"
  if (pc.action = "cross" ∨ pc.action = "traverse") ∨
     (direction = "chasm" ∨ direction = "bridge" ∨ direction = "safely") then
    if gs.location = "cave_entrance" then moveViaRoom gs ext "east"
    else if gs.location = "yawning_chasm" then crossChasm gs
    else if gs.location = "crystal_treasury" then moveViaRoom gs ext "west"
    else moveViaRoom gs ext direction
  else moveViaRoom gs ext direction

/-- `_handle_examination`. -/
def handleExamination (pc : Intent.ParsedCommand) (_gs : GameState) (ext : Ext) :
    GameResponse :=
  let target := targetOr pc.target "around"
  let described :=
    if target = "around" then ext.room_description else ext.examine_description
  match described with
  | .ok description =>
    { agent := "RoomDescriptor", narrative := description }
  | .error e =>
    { agent := "AdventureNarrator"
      narrative := "You examine " ++ target ++ ". [Agent error: " ++ e ++ "]" }

/-- The degraded fallback of `_handle_item_interaction` when a delegated
call raises. -/
def itemErrorResponse (action target e : String) : GameResponse :=
  { agent := "AdventureNarrator"
    narrative := "You " ++ action ++ " the " ++ target ++ ". [Agent error: " ++ e ++ "]" }

/-- `_handle_item_interaction`: the crystal-pickup special case (trap
trigger) followed by the generic pickup/drop/use delegation. -/
def handleItem (pc : Intent.ParsedCommand) (gs : GameState) (ext : Ext) :
    GameResponse :=
  let target := targetOr pc.target "something"
  let action := pc.action
  if pc.command_type = .pickup ∧ substrOf "crystal" (strLower target) then
    if gs.location ≠ "crystal_treasury" then
      match ext.pickup with
      | .ok result =>
        { agent := "InventoryManager"
          narrative := result.narrative
          game_state_updates := { inventory := some (result.inventory_update.getD []) }
          success := result.success }
      | .error e => itemErrorResponse action target e
    else if hasCrystalLower gs.inventory then
      { agent := "AdventureNarrator"
        narrative := "You already possess the Crystal of Echoing Depths. " ++
                     "Its weight reminds you of the urgency to escape."
        success := false }
    else if gs.collapse_triggered then
      match ext.pickup with
      | .ok result =>
        { agent := "InventoryManager"
          narrative := result.narrative
          game_state_updates := { inventory := some (result.inventory_update.getD []) }
          success := result.success }
      | .error e => itemErrorResponse action target e
    else
      match ext.pickup with
      | .ok result =>
        { agent := "AdventureNarrator"
          narrative :=
            "You reach out and carefully lift the Crystal of Echoing Depths from its pedestal. " ++
            "The moment it breaks contact, the crystal pulses with brilliant blue light.\n\n" ++
            "**CRACK!**\n\n" ++
            "The pressure plate beneath the pedestal sinks with a grinding sound of ancient stone. " ++
            "Mechanisms hidden in the walls engage with metallic screeches. Dust begins to rain from " ++
            "the ceiling as the first tremor shakes the chamber. The murals seem to scream their " ++
            "warnings - the cave is collapsing!\n\n" ++
            "You clutch the crystal tightly. **You must escape before you’re buried alive!**"
          game_state_updates :=
            { inventory := some (result.inventory_update.getD [])
              collapse_triggered := some true
              turns_since_collapse := some 0 }
          success := true }
      | .error e => itemErrorResponse action target e
  else
    let delegated :=
      match pc.command_type with
      | .pickup => ext.pickup
      | .drop => ext.dropResult
      | .use => ext.useResult
      | _ => .ok { success := false
                   message := "Unknown item action: " ++ action
                   inventory_update := some gs.inventory }
    match delegated with
    | .ok result =>
      let base : Delta :=
        match result.inventory_update with
        | some inv => { inventory := some inv }
        | none => {}
      { agent := "InventoryManager"
        narrative := result.message
        game_state_updates := deltaUpdate base result.state_changes
        success := result.success }
    | .error e => itemErrorResponse action target e

/-- `_handle_inventory`. -/
def handleInventory (_gs : GameState) (ext : Ext) : GameResponse :=
  match ext.inventory_summary with
  | .ok narrative =>
    { agent := "InventoryManager", narrative := narrative }
  | .error e =>
    { agent := "AdventureNarrator"
      narrative := "Inventory check failed. [Agent error: " ++ e ++ "]" }

/-- `_handle_ability`: validates through `SimpleAbilitySystem` and, for a
dash at the chasm, grants the single-use crossing permit flag. -/
def handleAbility (pc : Intent.ParsedCommand) (gs : GameState) : GameResponse :=
  let abilityName := (pc.parameters.lookup "ability_name").getD ""
  let characterClass := gs.character_class
  let parsed := Mech.parse_ability_command abilityName characterClass
  if ¬ parsed.1 then
    { agent := "SimpleAbilitySystem"
      narrative := "’" ++ abilityName ++ "’ is not a recognized ability for " ++
                   characterClass ++ "s."
      success := false }
  else
    let actual := parsed.2
    let result := Mech.use_ability actual characterClass
    let baseDelta : Delta :=
      { ability_used := result.ability_used, effect_type := result.effect_type }
    if actual = "dash" ∧ gs.location = "yawning_chasm" then
      { agent := "SimpleAbilitySystem"
        narrative := result.narrative ++ " You’re ready to leap across the chasm!"
        game_state_updates :=
          { baseDelta with temp_flags := some [("ability_used_for_crossing", true)] }
        success := result.success }
    else
      { agent := "SimpleAbilitySystem"
        narrative := result.narrative
        game_state_updates := baseDelta
        success := result.success }

/-- Routing of `handle_command` after the escape override: keyed on the
command type, ending in the fixed not-understood response. -/
def routeCommand (pc : Intent.ParsedCommand) (gs : GameState) (ext : Ext) :
    GameResponse :=
  match pc.command_type with
  | .movement => handleMovement pc gs ext
  | .examine => handleExamination pc gs ext
  | .look => handleExamination pc gs ext
  | .pickup => handleItem pc gs ext
  | .drop => handleItem pc gs ext
  | .use => handleItem pc gs ext
  | .inventory => handleInventory gs ext
  | .ability => handleAbility pc gs
  | _ => unknownResponse pc

/-- `AdventureNarrator.handle_command`: the escape/exit override runs before
type-based routing; it only concludes at `cave_entrance`, yielding the
victory response when a crystal-substring item is held and a refusal
otherwise. -/
def handle_command (pc : Intent.ParsedCommand) (gs : GameState) (ext : Ext) :
    GameResponse :=
  let targetMentionsCave : Bool :=
    match pc.target with
    | some t => decide (substrOf "cave" (strLower t))
    | none => false
  if (pc.action = "leave" ∨ pc.action = "escape" ∨ pc.action = "exit" ∨
      pc.action = "flee") ∨ targetMentionsCave = true then
    if gs.location = "cave_entrance" then
      if hasCrystalLower gs.inventory then
        { agent := "AdventureNarrator"
          narrative := Mech.get_victory_narrative
          game_state_updates :=
            { location := some "outside", game_status := some .victory } }
      else
        { agent := "AdventureNarrator"
          narrative := "You stand at the cave entrance, daylight beckoning. " ++
                       "But you came here for the legendary Crystal of Echoing Depths. " ++
                       "You won’t leave empty-handed - not after coming this far."
          success := false }
    else routeCommand pc gs ext
  else routeCommand pc gs ext

end Narrator

namespace Main

/-- The session record handled by `process_command` in `main.py`: every key
the pipeline reads or writes.  Defaults are the values `create_session` and
the in-pipeline `setdefault` calls establish.  `character_class` and
`character_health` come from the `character` sub-dict; `current_health` is
the separate key the damage system uses.  `ability_used`/`effect_type` are
the stray top-level keys the blind merge loop can create from ability
effects. -/
structure Session where
  turn_count : Nat := 0
  location : String := "cave_entrance"
  inventory : List String := []
  visited_rooms : List String := []
  history : List (Nat × String) := []
  character_class : String := ""
  character_health : Int := 100
  current_health : Int := 100
  collapse_triggered : Bool := false
  turns_since_collapse : Nat := 0
  collapse_turn_limit : Nat := 7
  temp_flags : Flags := []
  game_status : Option Mech.GameStatus := none
  defeat_reason : Option Mech.DefeatReason := none
  ability_used : Option String := none
  effect_type : Option String := none
deriving DecidableEq, Repr

/-- Projection to the field view `mechanics_old.py` operates on.  (The
`main.py` import list names `CollapseManager`, `DamageSystem` and
`should_trigger_collapse` — symbols defined only in `mechanics_old.py`;
the pipeline is embedded with those implementations and with the
evaluator of `mechanics.py`, matching the module each symbol lives in.) -/
def toOld (s : Session) : MechOld.Session :=
  { location := s.location
    inventory := s.inventory
    currentHealth := s.current_health
    characterClass := s.character_class
    collapseTriggered := s.collapse_triggered
    turnsSinceCollapse := s.turns_since_collapse
    collapseTurnLimit := s.collapse_turn_limit }

/-- Projection to the field view `mechanics.py` operates on. -/
def toMech (s : Session) : Mech.Session :=
  { inventory := s.inventory.map .str
    location := s.location
    characterHealth := s.character_health
    game_status := s.game_status
    defeat_reason := s.defeat_reason }

/-- The `game_state` dict `process_command` hands to the narrator: note that
`temp_flags` is NOT among the keys it passes, so the narrator always sees
an empty flag map. -/
def gameStateOf (s : Session) : Narrator.GameState :=
  { location := s.location
    inventory := s.inventory
    visited_rooms := s.visited_rooms
    character_class := s.character_class
    temp_flags := []
    collapse_triggered := s.collapse_triggered
    turns_since_collapse := s.turns_since_collapse
    turn_count := s.turn_count }

/-- The blind per-key assignment loop
`for key, value in game_response.game_state_updates.items():
session[key] = value` — every present delta key overwrites the session
entry wholesale, `temp_flags` included. -/
def applyUpdates (s : Session) (d : Narrator.Delta) : Session :=
  { s with
    location := d.location.getD s.location
    inventory := d.inventory.getD s.inventory
    game_status := match d.game_status with
                   | some g => some g
                   | none => s.game_status
    collapse_triggered := d.collapse_triggered.getD s.collapse_triggered
    turns_since_collapse := d.turns_since_collapse.getD s.turns_since_collapse
    temp_flags := d.temp_flags.getD s.temp_flags
    ability_used := match d.ability_used with
                    | some a => some a
                    | none => s.ability_used
    effect_type := match d.effect_type with
                   | some a => some a
                   | none => s.effect_type }

/-- Write-back of a `mechanics_old` damage application into the pipeline
session (the damage system mutates only `current_health`). -/
def applyDamage (s : Session) (roll choice : Nat) :
    MechOld.DamageResult × Session :=
  let r := MechOld.apply_environmental_damage (toOld s) roll choice
  (r.1, { s with current_health := r.2.currentHealth })

/-- Write-back of the `mechanics.py` status evaluation (it mutates only the
two status keys). -/
def updateStatus (s : Session) : Session × String :=
  let r := Mech.update_game_status (toMech s)
  ({ s with game_status := r.1.game_status, defeat_reason := r.1.defeat_reason },
   r.2)

/-- Write-back of `CollapseManager.trigger_collapse`. -/
def triggerCollapse (s : Session) : Session × String :=
  let r := MechOld.trigger_collapse (toOld s)
  ({ s with collapse_triggered := r.1.collapseTriggered
            turns_since_collapse := r.1.turnsSinceCollapse
            collapse_turn_limit := r.1.collapseTurnLimit },
   r.2)

/-- Everything `process_command` does before its `try` block:
`initialize_game_mechanics`, the turn-counter increment, the history
append, the hazard tick (only if the collapse was already active at turn
start), and the environmental damage roll. -/
def preTurn (s : Session) (command : String) (roll choice : Nat) :
    MechOld.DamageResult × Session :=
  let s1 := { s with game_status := some (s.game_status.getD .inProgress) }
  let s2 := { s1 with turn_count := s1.turn_count + 1 }
  let s3 := { s2 with history := s2.history ++ [(s2.turn_count, command)] }
  let s4 :=
    if s3.collapse_triggered then
      { s3 with turns_since_collapse := s3.turns_since_collapse + 1 }
    else s3
  applyDamage s4 roll choice

/-- The value `process_command` returns to the caller (session snapshot
aside). -/
structure TurnResult where
  turn : Nat
  response : String
  agent : String
  success : Bool
  error : Option String := none
deriving DecidableEq, Repr

/-- `process_command` of `main.py` for an existing session.  `parse` is the
outcome of the narrator's `parse_command` (an `Except.error` models the
classifier raising, which the endpoint's `except` clause catches); `ext`
carries the specialist-agent outcomes for the turn; `roll`/`choice` feed
the damage system.  Both exits persist the session they return — the
`except` clause saves the partially mutated session.  (The source's final
response construction references `GameStatus.ACTIVE`, a name absent from
the `GameStatus` it imports; the embedded result carries the session's
status via the snapshot instead.) -/
def process_command (s : Session) (command : String)
    (parse : Except String Intent.ParsedCommand) (ext : Narrator.Ext)
    (roll choice : Nat) : TurnResult × Session :=
  let pre := preTurn s command roll choice
  let s5 := pre.2
  match parse with
  | .error e =>
    ({ turn := s5.turn_count
       response := "Error processing command ’" ++ command ++ "’: " ++ e
       agent := "system"
       success := false
       error := some e }, s5)
  | .ok pc =>
    let gameResponse := Narrator.handle_command pc (gameStateOf s5) ext
    let s6 := applyUpdates s5 gameResponse.game_state_updates
    let triggered :=
      if MechOld.should_trigger_collapse command (toOld s6) then
        triggerCollapse s6
      else (s6, "")
    let s7 := triggered.1
    let collapseNarrative := triggered.2
    let fullNarrative :=
      if collapseNarrative ≠ "" then
        gameResponse.narrative ++ "\n\n" ++ collapseNarrative
      else if MechOld.is_collapse_active (toOld s7) then
        let warning := MechOld.get_collapse_narrative (toOld s7)
        if warning ≠ "" then warning ++ "\n\n" ++ gameResponse.narrative
        else gameResponse.narrative
      else gameResponse.narrative
    let fullNarrative2 :=
      if pre.1.narrative ≠ "" then
        fullNarrative ++ "\n\n" ++ pre.1.narrative
      else fullNarrative
    let evaluated := updateStatus s7
    let s8 := evaluated.1
    let fullNarrative3 :=
      if evaluated.2 ≠ "" then fullNarrative2 ++ "\n" ++ evaluated.2
      else fullNarrative2
    ({ turn := s8.turn_count
       response := fullNarrative3
       agent := gameResponse.agent
       success := gameResponse.success }, s8)

end Main

/-- The mitigation factors exactly as the specification states them (rational
values; used to compare against the percent table of the source). -/
def specMitigation : String → ℚ
  | "Warrior" => 1/2
  | "Wizard" => 3/10
  | "Rogue" => 2/5
  | _ => 0

/-- Helper: substring containment survives lowercasing when the needle is
already lowercase. -/
theorem substrOf_strLower {needle hay : String}
    (h : substrOf needle hay)
    (hfix : needle.data.map Char.toLower = needle.data) :
    substrOf needle (strLower hay) := by
  have := List.IsInfix.map Char.toLower h
  simpa [substrOf, strLower, hfix] using this

/-- Helper: floor of `b * (1 - p/100)` over ℚ equals natural floor division
by 100, for a percentage `p ≤ 100`. -/
theorem floor_percent (b p : ℕ) (hp : p ≤ 100) :
    ⌊(b : ℚ) * (1 - (p : ℚ) / 100)⌋ = (b * (100 - p) / 100 : ℕ) := by
  have h1 : (b : ℚ) * (1 - (p : ℚ) / 100) = ((b * (100 - p) : ℕ) : ℚ) / ((100 : ℕ) : ℚ) := by
    have hcast : ((100 - p : ℕ) : ℚ) = 100 - (p : ℚ) := by
      push_cast [Nat.cast_sub hp]
      ring
    push_cast [hcast]
    ring
  rw [h1, Rat.floor_natCast_div_natCast]
  exact_mod_cast (Int.natCast_div _ _).symm

/-- Helper: `calculate_damage` computes exactly the floor formula of the
specification, with the mitigation factor determined by the archetype. -/
theorem calculate_damage_eq_floor (base : ℕ) (cls : String) :
    (MechOld.calculate_damage base cls : ℤ) =
      max 0 ⌊(base : ℚ) * (1 - specMitigation cls)⌋ := by
  have hred : MechOld.CLASS_DAMAGE_REDUCTION cls ≤ 100 ∧
      specMitigation cls = (MechOld.CLASS_DAMAGE_REDUCTION cls : ℚ) / 100 := by
    unfold MechOld.CLASS_DAMAGE_REDUCTION specMitigation
    split <;> exact ⟨by norm_num, by norm_num⟩
  obtain ⟨hle, heq⟩ := hred
  rw [heq, MechOld.calculate_damage, floor_percent base _ hle]
  have : (0 : ℤ) ≤ (base * (100 - MechOld.CLASS_DAMAGE_REDUCTION cls) / 100 : ℕ) := by
    positivity
  omega

/-- C4 counterexample: with non-empty input and a failing external call, the
resolver returns the propagated exception, not the claimed fallback Action
(`Unknown`, confidence 0, original text as verb). -/
theorem C4_counterexample :
    Intent.parse_command "go north" (.error "timeout") = .error "timeout" ∧
    Intent.parse_command "go north" (.error "timeout") ≠
      .ok { command_type := .unknown, action := "go north", confidence := 0 } := by
  constructor
  · rfl
  · intro h
    simp [Intent.parse_command, Intent.isBlank] at h

/-- C4 (amended): for every non-empty (non-blank) input, a failing external
classification call propagates out of `parse_command` unchanged — the
resolver has no catch and returns no fallback Action. -/
theorem C4_classifier_failure_propagates (raw : String) (e : String)
    (h : Intent.isBlank raw = false) :
    Intent.parse_command raw (.error e) = .error e := by
  simp [Intent.parse_command, h]

/-- C4 witness. -/
theorem C4_classifier_failure_propagates_witness :
    Intent.isBlank "go north" = false ∧
    Intent.parse_command "go north" (.error "boom") = .error "boom" :=
  ⟨by decide, C4_classifier_failure_propagates "go north" "boom" (by decide)⟩

/-- C6 counterexample: the evaluator is not idempotent on terminal states.
A `mechanics_old` session already marked Victory whose victory predicate no
longer holds (location `outside`, `escaped` unset) is reset to Active; and
a `mechanics.py` session already marked Defeat with depleted health has its
terminal narrative re-emitted on re-evaluation. -/
theorem C6_counterexample :
    (MechOld.update_game_status
        { status := .victory, location := "outside",
          inventory := ["crystal_of_echoing_depths"] }).1.status =
      MechOld.GameStatus.active ∧
    MechOld.GameStatus.active ≠ MechOld.GameStatus.victory ∧
    (Mech.update_game_status
        { game_status := some .defeat, characterHealth := 0 }).2 ≠ "" := by
  refine ⟨rfl, by decide, ?_⟩
  decide

/-- C6 (amended): the outcome evaluator ignores the stored status and
recomputes from the gameplay fields: the legacy evaluator's output is
independent of the stored status (so a terminal state whose predicates no
longer hold is reset to Active rather than kept terminal), and whenever a
victory or defeat predicate holds — including on an already-terminal state
— the terminal narrative is (re-)emitted. -/
theorem C6_evaluator_recomputes_ignoring_status :
    (∀ (s : MechOld.Session) (st : MechOld.GameStatus),
      MechOld.update_game_status { s with status := st } =
        MechOld.update_game_status s) ∧
    (∀ m : Mech.Session, Mech.check_victory_condition m = true →
      (Mech.update_game_status m).2 ≠ "") ∧
    (∀ m : Mech.Session, Mech.check_victory_condition m = false →
      m.characterHealth ≤ 0 → (Mech.update_game_status m).2 ≠ "") := by
  refine ⟨?_, ?_, ?_⟩
  · intro s st
    simp [MechOld.update_game_status, MechOld.check_victory_condition,
          MechOld.check_defeat_conditions, MechOld.is_collapse_active,
          MechOld.is_time_running_out, MechOld.get_urgency_level,
          MechOld.get_turns_since_collapse, MechOld.get_turn_limit]
  · intro m h
    simp [Mech.update_game_status, h, Mech.get_victory_narrative]
  · intro m hv hh
    simp [Mech.update_game_status, hv, Mech.check_defeat_conditions, hh,
          Mech.get_defeat_narrative]

/-- C6 witness. -/
theorem C6_evaluator_recomputes_ignoring_status_witness :
    Mech.check_victory_condition
      { inventory := [.str "crystal_of_echoing_depths"],
        location := "cave_entrance", game_status := some .victory } = true ∧
    (Mech.update_game_status
      { inventory := [.str "crystal_of_echoing_depths"],
        location := "cave_entrance", game_status := some .victory }).2 ≠ "" :=
  ⟨by decide, C6_evaluator_recomputes_ignoring_status.2.1 _ (by decide)⟩

/-- C7: with the hazard active, the tier function yields none at 0 turns,
minor for 1–2, moderate for 3–4, severe for 5–6, critical from 7 (the
default turn limit) on, and its severity rank is monotone in the elapsed
turns. -/
theorem C7_hazard_tier_boundaries (s : MechOld.Session)
    (h : s.collapseTriggered = true) :
    (s.turnsSinceCollapse = 0 → MechOld.get_urgency_level s = "none") ∧
    (1 ≤ s.turnsSinceCollapse → s.turnsSinceCollapse ≤ 2 →
      MechOld.get_urgency_level s = "minor") ∧
    (3 ≤ s.turnsSinceCollapse → s.turnsSinceCollapse ≤ 4 →
      MechOld.get_urgency_level s = "moderate") ∧
    (5 ≤ s.turnsSinceCollapse → s.turnsSinceCollapse ≤ 6 →
      MechOld.get_urgency_level s = "severe") ∧
    (7 ≤ s.turnsSinceCollapse → MechOld.get_urgency_level s = "critical") ∧
    MechOld.DEFAULT_TURN_LIMIT = 7 ∧
    (∀ t u : ℕ, t ≤ u →
      MechOld.urgencyRank
          (MechOld.get_urgency_level { s with turnsSinceCollapse := t }) ≤
        MechOld.urgencyRank
          (MechOld.get_urgency_level { s with turnsSinceCollapse := u })) := by
  have hups : ∀ t : ℕ,
      MechOld.get_urgency_level { s with turnsSinceCollapse := t } =
        if t = 0 then "none"
        else if t ≤ 2 then "minor"
        else if t ≤ 4 then "moderate"
        else if t ≤ 6 then "severe"
        else "critical" := by
    intro t
    simp [MechOld.get_urgency_level, MechOld.is_collapse_active, h,
          MechOld.get_turns_since_collapse]
  have hself : MechOld.get_urgency_level s =
      MechOld.get_urgency_level { s with turnsSinceCollapse := s.turnsSinceCollapse } := by
    rfl
  refine ⟨?_, ?_, ?_, ?_, ?_, rfl, ?_⟩
  · intro h0; rw [hself, hups]; simp [h0]
  · intro h1 h2; rw [hself, hups]; split_ifs <;> first | rfl | omega
  · intro h1 h2; rw [hself, hups]; split_ifs <;> first | rfl | omega
  · intro h1 h2; rw [hself, hups]; split_ifs <;> first | rfl | omega
  · intro h1; rw [hself, hups]; split_ifs <;> first | rfl | omega
  · intro t u htu
    rw [hups, hups]
    split_ifs <;> first | decide | omega

/-- C7 witness. -/
theorem C7_hazard_tier_boundaries_witness :
    (MechOld.Session.collapseTriggered
      { collapseTriggered := true, turnsSinceCollapse := 5 } = true) ∧
    MechOld.get_urgency_level
      { collapseTriggered := true, turnsSinceCollapse := 5 } = "severe" := by
  refine ⟨rfl, ?_⟩
  exact (C7_hazard_tier_boundaries
    { collapseTriggered := true, turnsSinceCollapse := 5 } rfl).2.2.2.1
    (by decide) (by decide)

/-- C8: when the hazard is inactive the damage resolver is a no-op reporting
`occurred = false`; when it is active and the roll lands below the tier's
damage chance, the damage applied is `floor(baseDamage * (1 - mitigation))`
clamped to be non-negative — mitigation 1/2 for Warrior, 3/10 for Wizard,
2/5 for Rogue, 0 otherwise per `specMitigation` — and the resulting health
is the previous health minus that damage, floored at 0; a roll at or above
the chance leaves the session untouched. -/
theorem C8_damage_resolution (s : MechOld.Session) (roll choice : Nat) :
    (MechOld.is_collapse_active s = false →
      MechOld.apply_environmental_damage s roll choice = ({}, s)) ∧
    (MechOld.is_collapse_active s = true →
      roll < MechOld.get_damage_chance s →
      ((MechOld.apply_environmental_damage s roll choice).1.damage_occurred = true ∧
       ((MechOld.apply_environmental_damage s roll choice).1.damage_applied : ℤ) =
         max 0 ⌊(MechOld.get_damage_amount s : ℚ) *
                  (1 - specMitigation s.characterClass)⌋ ∧
       (MechOld.apply_environmental_damage s roll choice).2.currentHealth =
         max 0 (s.currentHealth -
           (MechOld.apply_environmental_damage s roll choice).1.damage_applied))) ∧
    (MechOld.is_collapse_active s = true →
      MechOld.get_damage_chance s ≤ roll →
      (MechOld.apply_environmental_damage s roll choice).1.damage_occurred = false ∧
      (MechOld.apply_environmental_damage s roll choice).1.damage_applied = 0 ∧
      (MechOld.apply_environmental_damage s roll choice).2 = s) := by
  refine ⟨?_, ?_, ?_⟩
  · intro h
    simp [MechOld.apply_environmental_damage, h]
  · intro hact hroll
    simp only [MechOld.apply_environmental_damage, hact, Bool.true_eq_false,
      not_false_eq_true, if_neg, Bool.not_true, reduceIte, hroll, if_pos]
    refine ⟨rfl, ?_, rfl⟩
    exact calculate_damage_eq_floor (MechOld.get_damage_amount s) s.characterClass
  · intro hact hroll
    have : ¬ roll < MechOld.get_damage_chance s := by omega
    simp [MechOld.apply_environmental_damage, hact, this]

/-- C8 witness. -/
theorem C8_damage_resolution_witness :
    (MechOld.is_collapse_active
      { collapseTriggered := true, turnsSinceCollapse := 5,
        characterClass := "Warrior", currentHealth := 100 } = true) ∧
    (0 < MechOld.get_damage_chance
      { collapseTriggered := true, turnsSinceCollapse := 5,
        characterClass := "Warrior", currentHealth := 100 }) ∧
    ((MechOld.apply_environmental_damage
      { collapseTriggered := true, turnsSinceCollapse := 5,
        characterClass := "Warrior", currentHealth := 100 } 0 0).1.damage_occurred = true) := by
  refine ⟨rfl, by decide, ?_⟩
  exact ((C8_damage_resolution
    { collapseTriggered := true, turnsSinceCollapse := 5,
      characterClass := "Warrior", currentHealth := 100 } 0 0).2.1
    rfl (by decide)).1

/-- C9: the legacy evaluator checks victory first (a state satisfying both
victory and a defeat condition is reported Victory); among defeat
conditions, depleted health yields Death; otherwise being at the dead-end
location `collapsed_passage` with the hazard at severe or critical yields
TrappedInDeadEnd even when the generic timeout also holds; otherwise a
running-out timer yields TrappedByCollapse. -/
theorem C9_evaluator_priority_order (s : MechOld.Session) :
    (MechOld.check_victory_condition s = true →
      (MechOld.update_game_status s).1.status = .victory) ∧
    (MechOld.check_victory_condition s = false → s.currentHealth ≤ 0 →
      (MechOld.update_game_status s).1.status = .defeat ∧
      (MechOld.update_game_status s).1.defeatReason = some .death) ∧
    (MechOld.check_victory_condition s = false → 0 < s.currentHealth →
      s.location = "collapsed_passage" → MechOld.is_collapse_active s = true →
      (MechOld.get_urgency_level s = "severe" ∨
       MechOld.get_urgency_level s = "critical") →
      (MechOld.update_game_status s).1.status = .defeat ∧
      (MechOld.update_game_status s).1.defeatReason = some .trappedInDeadEnd) ∧
    (MechOld.check_victory_condition s = false → 0 < s.currentHealth →
      ¬ (s.location = "collapsed_passage" ∧ MechOld.is_collapse_active s = true ∧
         (MechOld.get_urgency_level s = "severe" ∨
          MechOld.get_urgency_level s = "critical")) →
      MechOld.is_time_running_out s = true →
      (MechOld.update_game_status s).1.status = .defeat ∧
      (MechOld.update_game_status s).1.defeatReason = some .trappedByCollapse) := by
  refine ⟨?_, ?_, ?_, ?_⟩
  · intro hv
    simp [MechOld.update_game_status, hv]
  · intro hv hh
    simp [MechOld.update_game_status, hv, MechOld.check_defeat_conditions, hh]
  · intro hv hh hl hact hurg
    have hnh : ¬ s.currentHealth ≤ 0 := by omega
    have hcond : s.location = "collapsed_passage" ∧ MechOld.is_collapse_active s = true ∧
        (MechOld.get_urgency_level s = "severe" ∨
         MechOld.get_urgency_level s = "critical") := ⟨hl, hact, hurg⟩
    simp [MechOld.update_game_status, hv, MechOld.check_defeat_conditions,
          hnh, hcond]
  · intro hv hh hnd htime
    have hnh : ¬ s.currentHealth ≤ 0 := by omega
    simp [MechOld.update_game_status, hv, MechOld.check_defeat_conditions,
          hnh, hnd, htime]

/-- C9 witness. -/
theorem C9_evaluator_priority_order_witness :
    (MechOld.check_victory_condition
      { location := "collapsed_passage", collapseTriggered := true,
        turnsSinceCollapse := 9, currentHealth := 50 } = false) ∧
    ((MechOld.update_game_status
      { location := "collapsed_passage", collapseTriggered := true,
        turnsSinceCollapse := 9, currentHealth := 50 }).1.defeatReason =
      some .trappedInDeadEnd) := by
  refine ⟨by decide, ?_⟩
  exact ((C9_evaluator_priority_order
    { location := "collapsed_passage", collapseTriggered := true,
      turnsSinceCollapse := 9, currentHealth := 50 }).2.2.1
    (by decide) (by decide) rfl rfl (Or.inr (by decide))).2

/-- C10: the possession test backing the victory check (`mechanics.py`) and
the escape override (`adventure_narrator.py`) is a substring scan: any
inventory entry whose string form (or dict `id`) contains `"crystal"`
passes it, and combined with the entrance location it already satisfies the
victory condition — the designated item id is in no way singled out. -/
theorem C10_possession_is_substring_match
    (inv : List Mech.Item) (it : String)
    (hmem : Mech.Item.str it ∈ inv) (hsub : substrOf "crystal" it)
    (invO : List Mech.Item) (idO : String)
    (hmemO : Mech.Item.obj idO ∈ invO) (hsubO : substrOf "crystal" idO)
    (invS : List String) (it2 : String)
    (hmem2 : it2 ∈ invS) (hsub2 : substrOf "crystal" it2) :
    Mech.hasCrystal inv = true ∧
    Mech.hasCrystal invO = true ∧
    Mech.check_victory_condition { inventory := inv, location := "cave_entrance" } = true ∧
    Narrator.hasCrystalLower invS = true := by
  have h1 : Mech.hasCrystal inv = true := by
    simp only [Mech.hasCrystal, List.any_eq_true]
    exact ⟨.str it, hmem, by simp [hsub]⟩
  have h2 : Mech.hasCrystal invO = true := by
    simp only [Mech.hasCrystal, List.any_eq_true]
    exact ⟨.obj idO, hmemO, by simp [hsubO]⟩
  have h3 : Narrator.hasCrystalLower invS = true := by
    simp only [Narrator.hasCrystalLower, List.any_eq_true]
    refine ⟨it2, hmem2, ?_⟩
    simp [substrOf_strLower hsub2 (by decide)]
  exact ⟨h1, h2, by simp [Mech.check_victory_condition, h1], h3⟩

/-- C10 witness: a non-designated id containing `"crystal"` passes every
possession check and triggers the victory predicate at the entrance. -/
theorem C10_possession_is_substring_match_witness :
    ("weathered_crystal_shard" ≠ "crystal_of_echoing_depths") ∧
    (substrOf "crystal" "weathered_crystal_shard") ∧
    (Mech.check_victory_condition
      { inventory := [.str "weathered_crystal_shard"],
        location := "cave_entrance" } = true) ∧
    Narrator.hasCrystalLower ["weathered_crystal_shard"] = true := by
  refine ⟨by decide, by decide, ?_⟩
  have h := C10_possession_is_substring_match
    [.str "weathered_crystal_shard"] "weathered_crystal_shard"
    (by simp) (by decide)
    [.obj "weathered_crystal_shard"] "weathered_crystal_shard"
    (by simp) (by decide)
    ["weathered_crystal_shard"] "weathered_crystal_shard"
    (by simp) (by decide)
  exact ⟨h.2.2.1, h.2.2.2⟩

/-- Helper: the pre-dispatch phase only touches the turn counter, the
history, the hazard counter, the damage-adjusted health and the
`setdefault` status; every other field survives untouched. -/
theorem preTurn_fields (s : Main.Session) (cmd : String) (roll choice : Nat) :
    (Main.preTurn s cmd roll choice).2.location = s.location ∧
    (Main.preTurn s cmd roll choice).2.inventory = s.inventory ∧
    (Main.preTurn s cmd roll choice).2.temp_flags = s.temp_flags ∧
    (Main.preTurn s cmd roll choice).2.turn_count = s.turn_count + 1 ∧
    (Main.preTurn s cmd roll choice).2.history =
      s.history ++ [(s.turn_count + 1, cmd)] ∧
    (Main.preTurn s cmd roll choice).2.turns_since_collapse =
      (if s.collapse_triggered then s.turns_since_collapse + 1
       else s.turns_since_collapse) ∧
    (Main.preTurn s cmd roll choice).2.collapse_triggered = s.collapse_triggered := by
  simp only [Main.preTurn, Main.applyDamage]
  split <;> simp

/-- Helper: environmental damage never raises a non-negative health. -/
theorem apply_environmental_damage_health_le (o : MechOld.Session)
    (roll choice : Nat) (h : 0 ≤ o.currentHealth) :
    (MechOld.apply_environmental_damage o roll choice).2.currentHealth ≤
      o.currentHealth := by
  unfold MechOld.apply_environmental_damage
  split
  · simp
  · dsimp only
    split
    · dsimp only
      omega
    · simp

/-- Helper: with the hazard inactive at turn start, the pre-dispatch phase
leaves health untouched. -/
theorem preTurn_health_inactive (s : Main.Session) (cmd : String)
    (roll choice : Nat) (h : s.collapse_triggered = false) :
    (Main.preTurn s cmd roll choice).2.current_health = s.current_health := by
  simp only [Main.preTurn, Main.applyDamage, h]
  simp [MechOld.apply_environmental_damage, MechOld.is_collapse_active,
        Main.toOld, h]

/-- Helper: the pre-dispatch phase can only lower a non-negative health. -/
theorem preTurn_health_le (s : Main.Session) (cmd : String)
    (roll choice : Nat) (h : 0 ≤ s.current_health) :
    (Main.preTurn s cmd roll choice).2.current_health ≤ s.current_health := by
  simp only [Main.preTurn, Main.applyDamage]
  split <;> exact apply_environmental_damage_health_le _ roll choice h

/-- C1: evaluated on the embedded pipeline, a session that merely stands at
the egress location with the crystal — processing a plain `look` command
that carries no egress verb — comes out with terminal status Victory: the
wired victory predicate is location-plus-item only, contradicting the
specification and the repository's own scenario test, which demands no
victory before an explicit exit command. -/
theorem C1_victory_without_egress_action :
    ((Main.process_command
        { location := "cave_entrance", inventory := ["crystal_of_echoing_depths"],
          collapse_triggered := true, turns_since_collapse := 2,
          game_status := some .inProgress }
        "look around"
        (.ok { command_type := .look, action := "look" })
        { room_description := .ok "Daylight spills into the cave mouth." }
        99 0).2).game_status = some Mech.GameStatus.victory ∧
    ("look" ∉ ["leave", "escape", "exit", "flee"]) := by
  exact ⟨rfl, by decide⟩

/-- C2 counterexample: a session already in terminal status Victory still
has a subsequent movement command processed — its location changes, so
terminal status does not freeze the gameplay fields. -/
theorem C2_counterexample :
    (Main.Session.game_status
      { location := "outside", inventory := ["crystal_of_echoing_depths"],
        game_status := some .victory } = some Mech.GameStatus.victory) ∧
    ((Main.process_command
        { location := "outside", inventory := ["crystal_of_echoing_depths"],
          game_status := some .victory }
        "go west"
        (.ok { command_type := .movement, action := "go", direction := some "west" })
        { movement := .ok { success := true,
                            description := "You walk back into the cave mouth.",
                            new_location := "cave_entrance" } }
        99 0).2).location = "cave_entrance" ∧
    Main.Session.location
      { location := "outside", inventory := ["crystal_of_echoing_depths"],
        game_status := some .victory } ≠ "cave_entrance" := by
  exact ⟨rfl, rfl, by decide⟩

/-- C2 (amended): `process_command` contains no terminal-status guard at
all — for every session, terminal or not, the persisted location and
inventory are exactly what the handler's state delta dictates (previous
value when the delta omits the key) and the persisted health is the
damage-adjusted pre-dispatch health; the stored status gates nothing. -/
theorem C2_no_terminal_guard (s : Main.Session) (cmd : String)
    (pc : Intent.ParsedCommand) (ext : Narrator.Ext) (roll choice : Nat) :
    ((Main.process_command s cmd (.ok pc) ext roll choice).2).location =
      ((Narrator.handle_command pc
          (Main.gameStateOf (Main.preTurn s cmd roll choice).2)
          ext).game_state_updates.location).getD s.location ∧
    ((Main.process_command s cmd (.ok pc) ext roll choice).2).inventory =
      ((Narrator.handle_command pc
          (Main.gameStateOf (Main.preTurn s cmd roll choice).2)
          ext).game_state_updates.inventory).getD s.inventory ∧
    ((Main.process_command s cmd (.ok pc) ext roll choice).2).current_health =
      (Main.preTurn s cmd roll choice).2.current_health := by
  obtain ⟨hloc, hinv, -, -, -, -, -⟩ := preTurn_fields s cmd roll choice
  simp only [Main.process_command, Main.updateStatus, Main.applyUpdates]
  split <;>
    simp [Main.triggerCollapse, hloc, hinv]

/-- C3 counterexample: a turn whose handler delta sets `temp_flags` keys
`chasm_east_side`/`ability_used_for_crossing` wipes out the unrelated
pre-existing key `torch_lit` — the flag-map merge is an overwrite, not an
additive merge. -/
theorem C3_counterexample :
    (List.lookup "torch_lit"
      (Main.Session.temp_flags
        { location := "yawning_chasm", inventory := ["magical_rope"],
          temp_flags := [("torch_lit", true)],
          game_status := some .inProgress }) = some true) ∧
    (List.lookup "torch_lit"
      ((Main.process_command
          { location := "yawning_chasm", inventory := ["magical_rope"],
            temp_flags := [("torch_lit", true)],
            game_status := some .inProgress }
          "cross chasm"
          (.ok { command_type := .movement, action := "cross",
                 direction := some "chasm" })
          {} 99 0).2).temp_flags = none) ∧
    (List.lookup "chasm_east_side"
      ((Main.process_command
          { location := "yawning_chasm", inventory := ["magical_rope"],
            temp_flags := [("torch_lit", true)],
            game_status := some .inProgress }
          "cross chasm"
          (.ok { command_type := .movement, action := "cross",
                 direction := some "chasm" })
          {} 99 0).2).temp_flags = some true) := by
  exact ⟨rfl, rfl, rfl⟩

/-- C3 (amended): when a state delta carries a `transientFlags` sub-map, the
session-state merge replaces the whole stored flag map with it — keys
absent from the delta's sub-map are dropped, not preserved. -/
theorem C3_flag_merge_is_overwrite (s : Main.Session) (d : Narrator.Delta)
    (fl : Flags) (h : d.temp_flags = some fl) :
    (Main.applyUpdates s d).temp_flags = fl := by
  simp [Main.applyUpdates, h]

/-- C3 witness. -/
theorem C3_flag_merge_is_overwrite_witness :
    (Narrator.Delta.temp_flags { temp_flags := some [("a", true)] } =
      some [("a", true)]) ∧
    (Main.applyUpdates { temp_flags := [("b", true)] }
        { temp_flags := some [("a", true)] }).temp_flags = [("a", true)] :=
  ⟨rfl, C3_flag_merge_is_overwrite _ _ _ rfl⟩

/-- C5 counterexample: a turn that aborts (classifier raises) still persists
a partially mutated session — here the hazard tick and the damage roll ran
before the abort, so the persisted health is 95, not the turn-start 100. -/
theorem C5_counterexample :
    (Main.Session.current_health
      { collapse_triggered := true, turns_since_collapse := 2,
        current_health := 100, character_class := "Warrior" } = 100) ∧
    ((Main.process_command
        { collapse_triggered := true, turns_since_collapse := 2,
          current_health := 100, character_class := "Warrior" }
        "go north" (.error "boom") {} 0 0).2).current_health = 95 ∧
    ((Main.process_command
        { collapse_triggered := true, turns_since_collapse := 2,
          current_health := 100, character_class := "Warrior" }
        "go north" (.error "boom") {} 0 0).2).turn_count = 1 := by
  exact ⟨rfl, rfl, rfl⟩

/-- C5 (amended): when processing aborts before dispatch completes, the
`except` clause persists the session exactly as mutated in place up to the
abort: turn counter incremented, command appended to the history, hazard
counter ticked when the hazard was active, and health possibly lowered by
the damage roll — while location, inventory and `temp_flags` are still the
turn-start values.  The persisted state is therefore the partial mutation,
not the turn-start snapshot the claim demands. -/
theorem C5_abort_persists_partial_mutation (s : Main.Session) (cmd e : String)
    (ext : Narrator.Ext) (roll choice : Nat) :
    ((Main.process_command s cmd (.error e) ext roll choice).1.success = false) ∧
    ((Main.process_command s cmd (.error e) ext roll choice).2).location =
      s.location ∧
    ((Main.process_command s cmd (.error e) ext roll choice).2).inventory =
      s.inventory ∧
    ((Main.process_command s cmd (.error e) ext roll choice).2).temp_flags =
      s.temp_flags ∧
    ((Main.process_command s cmd (.error e) ext roll choice).2).turn_count =
      s.turn_count + 1 ∧
    ((Main.process_command s cmd (.error e) ext roll choice).2).history =
      s.history ++ [(s.turn_count + 1, cmd)] ∧
    ((Main.process_command s cmd (.error e) ext roll choice).2).turns_since_collapse =
      (if s.collapse_triggered then s.turns_since_collapse + 1
       else s.turns_since_collapse) ∧
    (s.collapse_triggered = false →
      ((Main.process_command s cmd (.error e) ext roll choice).2).current_health =
        s.current_health) ∧
    (0 ≤ s.current_health →
      ((Main.process_command s cmd (.error e) ext roll choice).2).current_health ≤
        s.current_health) := by
  obtain ⟨hloc, hinv, hfl, htc, hhist, htick, -⟩ := preTurn_fields s cmd roll choice
  have hsession : (Main.process_command s cmd (.error e) ext roll choice).2 =
      (Main.preTurn s cmd roll choice).2 := rfl
  refine ⟨rfl, ?_, ?_, ?_, ?_, ?_, ?_, ?_, ?_⟩
  · rw [hsession]; exact hloc
  · rw [hsession]; exact hinv
  · rw [hsession]; exact hfl
  · rw [hsession]; exact htc
  · rw [hsession]; exact hhist
  · rw [hsession]; exact htick
  · intro h; rw [hsession]; exact preTurn_health_inactive s cmd roll choice h
  · intro h; rw [hsession]; exact preTurn_health_le s cmd roll choice h

/-- C5 witness. -/
theorem C5_abort_persists_partial_mutation_witness :
    (Main.Session.collapse_triggered
      ({ current_health := 40 } : Main.Session) = false) ∧
    (0 ≤ (40 : Int)) ∧
    ((Main.process_command ({ current_health := 40 } : Main.Session)
        "wait" (.error "oops") {} 0 0).2).current_health = 40 ∧
    ((Main.process_command ({ current_health := 40 } : Main.Session)
        "wait" (.error "oops") {} 0 0).2).current_health ≤ 40 := by
  have h := C5_abort_persists_partial_mutation
    ({ current_health := 40 } : Main.Session) "wait" "oops" {} 0 0
  exact ⟨rfl, by decide, h.2.2.2.2.2.2.2.1 rfl, h.2.2.2.2.2.2.2.2 (by decide)⟩

end Adventure

